import Mathlib

/-!
# Verification of the Snowfun Nepal auth subsystem

Shallow embedding of the authentication core of the Snowfun Nepal
Freezer & Outlet Tracker backend: the OTP ledger, the JWT token
service, the auth/RBAC middleware chain and the auth-controller
handlers (register, login, refresh, change/forgot password,
verify-OTP-and-login).

Conventions of the embedding:
* Times are naturals (JavaScript `Date.now()` milliseconds for the OTP
  ledger; seconds-scale offsets for JWT expiries — the unit never
  matters, only order).
* A signed JWT is modelled as a record carrying its payload, the
  secret it was signed with and its expiry; `jwt.verify(tok, secret)`
  succeeds exactly when the recorded secret equals the verifying
  secret and the token is unexpired.  The string codec of the JWT
  library is abstracted as a `decode` parameter where the source
  handles raw header strings.
* `bcrypt.hash` / `bcrypt.compare` are external library calls and are
  passed in as function parameters `bhash` / `compare`.
* JavaScript truthiness on optional strings (`!x`) is `jsFalsyStr`;
  `a || b` on env vars is `jsOrElse`.
-/

/-- One entry of the in-memory OTP store: `otpStore.set(phone, { otp, expiresAt })`. -/
structure OTPEntry where
  otp : String
  expiresAt : Nat
deriving DecidableEq

/-- The in-memory OTP map, `const otpStore = new Map()`, keyed by phone. -/
def OTPStore : Type := String → Option OTPEntry

/-- Map update `otpStore.set(phone, e)`. -/
def otpSet (store : OTPStore) (phone : String) (e : OTPEntry) : OTPStore :=
  fun k => if k = phone then some e else store k

/-- Map removal `otpStore.delete(phone)`. -/
def otpDelete (store : OTPStore) (phone : String) : OTPStore :=
  fun k => if k = phone then none else store k

/-- Prefix test on strings (JavaScript `s.startsWith(p)` /
`s.indexOf(p) === 0`), written over the character list so it computes
by kernel reduction. -/
def strStartsWith (s p : String) : Bool :=
  p.toList.isPrefixOf s.toList

/-- Drop of the first `n` characters (JavaScript `s.substring(n)`). -/
def strDrop (s : String) (n : Nat) : String :=
  String.mk (s.toList.drop n)

/-- Character-level any (the `matches(/.../)` regex tests only ask for
one character of a class somewhere in the string). -/
def strAny (s : String) (f : Char -> Bool) : Bool :=
  s.toList.any f

/-- Split of a character list at every occurrence of `c` (JavaScript
`s.split(c)` keeps empty segments). -/
def splitOnChar (c : Char) : List Char -> List (List Char)
  | [] => [[]]
  | x :: xs =>
    let rest := splitOnChar c xs
    if x = c then
      [] :: rest
    else
      match rest with
      | [] => [[x]]
      | y :: ys => (x :: y) :: ys

/-- JavaScript `s.split(' ')`. -/
def jsSplitSpace (s : String) : List String :=
  (splitOnChar ' ' s.toList).map String.mk

/-- Numeric part of `generateOTP`:
`Math.floor(100000 + Math.random() * 900000)` with `Math.random()`
modelled as a rational `r` with `0 ≤ r < 1`. -/
def generateOTPnum (r : ℚ) : ℤ :=
  Int.floor ((100000 : ℚ) + r * 900000)

/-- `generateOTP`: the floored number rendered with `.toString()`. -/
def generateOTP (r : ℚ) : String :=
  toString (generateOTPnum r)

/-- The numeric codes `generateOTP` can actually produce, over all
possible outcomes of `Math.random()`. -/
def reachableOTPnum (c : ℤ) : Prop :=
  ∃ r : ℚ, 0 ≤ r ∧ r < 1 ∧ generateOTPnum r = c

/-- Source `storeOTP(phone, otp)`: keyed by phone with a 5-minute expiry,
overwriting any prior entry.  (The `setTimeout` cleanup only removes
already-expired entries and is invisible to `verifyOTP`'s results.) -/
def storeOTP (store : OTPStore) (phone otp : String) (now : Nat) : OTPStore :=
  otpSet store phone ⟨otp, now + 5 * 60 * 1000⟩

/-- Source `verifyOTP(phone, otp)` at time `now`: returns the boolean result
and the store after the call (the source mutates the global map). -/
def verifyOTP (store : OTPStore) (phone otp : String) (now : Nat) :
    Bool × OTPStore :=
  match store phone with
  | none => (false, store)
  | some storedData =>
    if storedData.expiresAt ≤ now then
      (false, otpDelete store phone)
    else if storedData.otp ≠ otp then
      (false, store)
    else
      (true, otpDelete store phone)

/-- Source `formatNepaliPhone(phone)`: strip non-digits, then normalise to a
`+977`-prefixed number when a known pattern matches. -/
def formatNepaliPhone (phone : String) : String :=
  let cleaned := String.mk (phone.toList.filter Char.isDigit)
  if strStartsWith cleaned "977" then
    "+" ++ cleaned
  else if strStartsWith cleaned "0" then
    "+977" ++ (strDrop cleaned 1)
  else if cleaned.length = 10 then
    "+977" ++ cleaned
  else
    phone

/-- A role row: property `roleName` (column `role_name`). -/
structure RoleRec where
  id : Nat
  roleName : String
deriving DecidableEq

/-- JavaScript dynamic property access on a `Role` entity instance:
only the declared property `roleName` exists; reading any other field
name (such as `role_name`) yields `undefined` (`none`). -/
def RoleRec.getField (r : RoleRec) (f : String) : Option String :=
  if f = "roleName" then some r.roleName else none

/-- A user row as the Credential Store persists it. -/
structure UserRec where
  id : Nat
  email : Option String
  phone : Option String
  password_hash : String
  fullName : String
  role : RoleRec
deriving DecidableEq

/-- JavaScript dynamic property access for the string-valued fields of
a `User` entity instance: the declared property is `fullName` (column
`full_name`); reading `full_name` yields `undefined` (`none`). -/
def UserRec.getStrField (u : UserRec) (f : String) : Option String :=
  if f = "fullName" then some u.fullName else none

/-- JavaScript truthiness test `!x` on an optional string:
`undefined` and `""` are falsy. -/
def jsFalsyStr : Option String → Bool
  | none => true
  | some s => s = ""

/-- JavaScript `a || b` for environment variables (`undefined` or `""`
fall through to the default). -/
def jsOrElse (o : Option String) (d : String) : String :=
  match o with
  | none => d
  | some s => if s = "" then d else s

/-- The process environment variables the auth controllers read. -/
structure Env where
  jwtSecret : String
  jwtRefreshSecret : Option String
  jwtResetSecret : Option String
deriving DecidableEq

/-- Fallback chain `process.env.JWT_REFRESH_SECRET || process.env.JWT_SECRET`. -/
def refreshSecretOf (env : Env) : String :=
  jsOrElse env.jwtRefreshSecret env.jwtSecret

/-- Fallback chain `process.env.JWT_RESET_SECRET || process.env.JWT_SECRET`. -/
def resetSecretOf (env : Env) : String :=
  jsOrElse env.jwtResetSecret env.jwtSecret

/-- A signed access token: payload `{ id, role }`, the signing secret
and the absolute expiry (`expiresIn: '1h'`). -/
structure SignedAccess where
  id : Nat
  role : String
  secret : String
  exp : Nat
deriving DecidableEq

/-- A signed refresh token: payload `{ id }` only — no role claim —
with the signing secret and the absolute expiry (`expiresIn: '7d'`). -/
structure SignedRefresh where
  id : Nat
  secret : String
  exp : Nat
deriving DecidableEq

/-- A signed password-reset token: payload `{ id }`, `expiresIn: '1h'`. -/
structure SignedReset where
  id : Nat
  secret : String
  exp : Nat
deriving DecidableEq

/-- The `{ accessToken, refreshToken }` pair. -/
structure TokenPair where
  accessToken : SignedAccess
  refreshToken : SignedRefresh
deriving DecidableEq

/-- Source `generateTokens(user)` with `user = { id, role }`: the access
token embeds `{ id, role: user.role.roleName }` signed with
`JWT_SECRET` for 1h; the refresh token embeds `{ id }` signed with
`JWT_REFRESH_SECRET || JWT_SECRET` for 7d. -/
def generateTokens (env : Env) (now : Nat) (id : Nat) (role : RoleRec) :
    TokenPair :=
  { accessToken := ⟨id, role.roleName, env.jwtSecret, now + 3600⟩
    refreshToken := ⟨id, refreshSecretOf env, now + 7 * 24 * 3600⟩ }

/-- The `User` entity's `@BeforeInsert`/`@BeforeUpdate` hook:
`if (this.password_hash && this.password_hash.indexOf('$2b$') !== 0)`
then replace it by its bcrypt hash, else leave it unchanged.
`bhash` models the external `bcrypt.hash(·, 10)`. -/
def hashPassword (bhash : String → String) (ph : String) : String :=
  if (ph != "") && !(strStartsWith ph "$2b$") then bhash ph else ph

/-- Modelled from the spec: the route validator middleware files are
not among the staged source files; the spec's minimum-strength policy
for passwords is "length ≥ 8, contains a letter and a digit". -/
def meetsStrengthPolicy (p : String) : Bool :=
  (decide (8 ≤ p.length)) && (strAny p Char.isAlpha) && (strAny p Char.isDigit)

/-- Modelled from the spec: the `/change-password` route's validator
middleware is not among the staged source files (the controller only
consults its accumulated `validationResult`); per the spec's Password
Change flow, the request is rejected "if new password equals current
(policy) or fails strength policy". -/
def changePasswordValidationOk (currentPassword newPassword : String) : Bool :=
  meetsStrengthPolicy newPassword && (newPassword != currentPassword)

/-- Outcome of the `changePassword` controller. -/
inductive ChangePwResp where
  | validationFailed
  | unauthorized
  | ok
deriving DecidableEq

/-- Source `changePassword` controller for the authenticated user whose
stored hash is `stored`: validation gate, then
`bcrypt.compare(currentPassword, user.password_hash)` (401 on
mismatch), then `user.password_hash = newPassword` and save — the
`@BeforeUpdate` hook hashes it.  Returns the response and the
persisted hash. -/
def changePassword (compare : String → String → Bool)
    (bhash : String → String) (stored currentPassword newPassword : String) :
    ChangePwResp × String :=
  if changePasswordValidationOk currentPassword newPassword = false then
    (.validationFailed, stored)
  else if compare currentPassword stored = false then
    (.unauthorized, stored)
  else
    (.ok, hashPassword bhash newPassword)

/-- Response of the `login` controller.  Both failure branches of the
source build the same literal JSON body, reproduced here. -/
inductive LoginResp where
  | validationErr
  | failure (status : Nat) (error message : String)
  | ok (userId : Nat) (role : String) (tokens : TokenPair)
deriving DecidableEq

/-- Source `login` controller: lookup by email, then
`bcrypt.compare(password, user.password_hash)`; both the
unknown-email and the wrong-password branch answer
`401 Unauthorized, "Invalid email or password"`. -/
def login (env : Env) (now : Nat) (compare : String → String → Bool)
    (users : List UserRec) (validationOk : Bool) (email password : String) :
    LoginResp :=
  if validationOk = false then
    .validationErr
  else
    match users.find? (fun u => u.email == some email) with
    | none => .failure 401 "Unauthorized" "Invalid email or password"
    | some user =>
      if compare password user.password_hash = false then
        .failure 401 "Unauthorized" "Invalid email or password"
      else
        .ok user.id user.role.roleName (generateTokens env now user.id user.role)

/-- Response of the `refreshToken` controller. -/
inductive RefreshResp where
  | badRequest
  | unauthorizedInvalid
  | unauthorizedNoUser
  | ok (tokens : TokenPair)
deriving DecidableEq

/-- Source `refreshToken` controller: missing body token → 400;
`jwt.verify(refreshToken, JWT_REFRESH_SECRET || JWT_SECRET)` failure →
401; unknown subject id → 401; else a fresh pair issued from the
user's current role row. -/
def refreshTokenHandler (env : Env) (now : Nat) (users : List UserRec)
    (body : Option SignedRefresh) : RefreshResp :=
  match body with
  | none => .badRequest
  | some tok =>
    if tok.secret = refreshSecretOf env ∧ now < tok.exp then
      match users.find? (fun u => u.id == tok.id) with
      | none => .unauthorizedNoUser
      | some user => .ok (generateTokens env now user.id user.role)
    else
      .unauthorizedInvalid

/-- Response of the `forgotPassword` controller: always HTTP 200 with
the fixed message; outside production the body additionally spreads
`{ resetToken }` when an account was found. -/
structure ForgotResp where
  status : Nat
  message : String
  resetToken : Option SignedReset
deriving DecidableEq

/-- Source `forgotPassword` controller: lookup by email; unknown email →
generic 200; known email → sign a 1h reset token and return the same
generic 200, attaching the token only when
`process.env.NODE_ENV !== 'production'`. -/
def forgotPassword (env : Env) (production : Bool) (users : List UserRec)
    (email : String) (now : Nat) : ForgotResp :=
  match users.find? (fun u => u.email == some email) with
  | none =>
    ⟨200, "If your email is registered, you will receive a password reset link",
      none⟩
  | some user =>
    let resetToken : SignedReset := ⟨user.id, resetSecretOf env, now + 3600⟩
    ⟨200, "If your email is registered, you will receive a password reset link",
      if production then none else some resetToken⟩

/-- The `/register` route's validator chain.  `isEmail` and
`isMobilePhone` are the external validator-library predicates, passed
in as parameters; the password policy and the `fullName` length bounds
are concrete. -/
def registerValidationOk (isEmail isMobilePhone : String → Bool)
    (email password fullName : String) (phone : Option String)
    (roleId : Option Nat) : Bool :=
  isEmail email && meetsStrengthPolicy password
    && ((fullName != "") && decide (2 ≤ fullName.length)
        && decide (fullName.length ≤ 100))
    && (match phone with | none => true | some p => isMobilePhone p)
    && (match roleId with | none => true | some r => decide (1 ≤ r))

/-- Response of the `register` controller. -/
inductive RegisterResp where
  | validationErr
  | conflict
  | badRole
  /-- Case `roleId` absent and no PSR role row: the source proceeds to save
  a user with `role` undefined, which violates the `role_id` NOT NULL
  constraint and surfaces through the global error handler. -/
  | dbError
  | created (id : Nat) (email fullName role : String) (tokens : TokenPair)
deriving DecidableEq

/-- Source `register` controller: validation gate, email-uniqueness conflict
check, role resolution (explicit `roleId` or default PSR, id 2), then
create + save — the `@BeforeInsert` hook hashes `password_hash`.
`newId` models the id the store generates for the inserted row.
Returns the response and the user table after the call. -/
def register (env : Env) (bhash : String → String) (now : Nat)
    (users : List UserRec) (roles : List RoleRec) (newId : Nat)
    (validationOk : Bool) (email password fullName : String)
    (phone : Option String) (roleId : Option Nat) :
    RegisterResp × List UserRec :=
  if validationOk = false then
    (.validationErr, users)
  else if (users.find? (fun u => u.email == some email)).isSome then
    (.conflict, users)
  else
    let roleFound : Option RoleRec :=
      match roleId with
      | some rid => roles.find? (fun r => r.id == rid)
      | none => roles.find? (fun r => r.id == 2)
    match roleId, roleFound with
    | some _, none => (.badRole, users)
    | none, none => (.dbError, users)
    | _, some role =>
      let user : UserRec :=
        ⟨newId, some email, phone, hashPassword bhash password, fullName, role⟩
      (.created newId email fullName role.roleName
          (generateTokens env now newId role),
        users ++ [user])

/-- Response of the `verifyOTPAndLogin` controller. -/
inductive VerifyLoginResp where
  | validationErr
  /-- Response `401 Invalid OTP`: the code is invalid or has expired. -/
  | invalidOTP
  /-- Response `400 Registration Required` with `requiresRegistration: true`. -/
  | registrationRequired
  /-- Response `500 Server Error`: the default PSR role row is missing. -/
  | serverError
  | authenticated (id : Nat) (phone : Option String) (fullName role : String)
      (tokens : TokenPair)
deriving DecidableEq

/-- Source `verifyOTPAndLogin` controller: validation gate; format the phone;
`verifyOTP` (consuming the entry on success); then either log the
existing account in, demand registration when no account exists and
`fullName` is falsy, or create a PSR account.  `newId` models the
generated id and `randPass` the `Math.random().toString(36).slice(-10)`
placeholder password.  Returns the response, the OTP store and the
user table after the call. -/
def verifyOTPAndLogin (env : Env) (bhash : String → String) (now : Nat)
    (store : OTPStore) (users : List UserRec) (roles : List RoleRec)
    (newId : Nat) (randPass : String) (validationOk : Bool)
    (phone otp : String) (fullName : Option String) :
    VerifyLoginResp × OTPStore × List UserRec :=
  if validationOk = false then
    (.validationErr, store, users)
  else
    let formattedPhone := formatNepaliPhone phone
    let verified := verifyOTP store formattedPhone otp now
    if verified.fst = false then
      (.invalidOTP, verified.snd, users)
    else
      match users.find? (fun u => u.phone == some formattedPhone) with
      | some user =>
        (.authenticated user.id user.phone user.fullName user.role.roleName
            (generateTokens env now user.id user.role),
          verified.snd, users)
      | none =>
        if jsFalsyStr fullName then
          (.registrationRequired, verified.snd, users)
        else
          match roles.find? (fun r => r.id == 2) with
          | none => (.serverError, verified.snd, users)
          | some psrRole =>
            let fn := fullName.getD ""
            let user : UserRec :=
              ⟨newId, none, some formattedPhone, hashPassword bhash randPass,
                fn, psrRole⟩
            (.authenticated newId (some formattedPhone) fn psrRole.roleName
                (generateTokens env now newId psrRole),
              verified.snd, users ++ [user])

/-- Outcome of `jwt.verify` on a raw access-token string. -/
inductive JwtVerifyResult where
  /-- Error named `JsonWebTokenError` (garbled token or bad signature). -/
  | invalid
  /-- Error named `TokenExpiredError`. -/
  | expired
  | ok (payload : SignedAccess)
deriving DecidableEq

/-- Verification `jwt.verify(token, JWT_SECRET)` of a raw token string:
`decode` is the JWT library's parse of arbitrary strings into signed
tokens (`none` for garbled input); a parsed token verifies when its
recorded signing secret matches and it is unexpired. -/
def jwtVerifyAccess (decode : String → Option SignedAccess) (secret : String)
    (now : Nat) (token : String) : JwtVerifyResult :=
  match decode token with
  | none => .invalid
  | some t =>
    if t.secret ≠ secret then .invalid
    else if t.exp ≤ now then .expired
    else .ok t

/-- The `req.user` object `authMiddleware` attaches: note the source
reads `user.full_name` / `user.role.role_name`, so those two fields go
through the dynamic-property-access model. -/
structure ReqUser where
  id : Nat
  email : Option String
  fullName : Option String
  role : Option String
deriving DecidableEq

/-- An error response from the middleware layer. -/
structure MwErr where
  status : Nat
  error : String
  message : String
deriving DecidableEq

/-- Source `authMiddleware`: checks the `Authorization` header, takes
`authHeader.split(' ')[1]` as the token (falsy → 401), verifies it,
refetches the user and attaches
`{ id, email, fullName: user.full_name, role: user.role.role_name }`
— the two snake_case reads use JavaScript property-access semantics on
the camelCase entity. -/
def authMiddleware (decode : String → Option SignedAccess) (secret : String)
    (now : Nat) (users : List UserRec) (authHeader : Option String) :
    Except MwErr ReqUser :=
  match authHeader with
  | none =>
    .error ⟨401, "Unauthorized", "Authentication required. No token provided."⟩
  | some header =>
    let token? := (jsSplitSpace header)[1]?
    if jsFalsyStr token? then
      .error ⟨401, "Unauthorized",
        "Invalid authentication format. Expected \"Bearer [token]\"."⟩
    else
      match jwtVerifyAccess decode secret now (token?.getD "") with
      | .invalid =>
        .error ⟨401, "Unauthorized", "Invalid authentication token."⟩
      | .expired =>
        .error ⟨401, "Unauthorized",
          "Authentication token has expired. Please login again."⟩
      | .ok payload =>
        match users.find? (fun u => u.id == payload.id) with
        | none =>
          .error ⟨401, "Unauthorized",
            "User no longer exists or access has been revoked."⟩
        | some user =>
          .ok ⟨user.id, user.email, user.getStrField "full_name",
            user.role.getField "role_name"⟩

/-- Outcome of the RBAC guard (and of the whole middleware chain). -/
inductive RBACResult where
  /-- Control passed to the route handler. -/
  | next
  | err (status : Nat) (error message : String)
deriving DecidableEq

/-- Source `rbacMiddleware(allowedRoles)`: `!req.user || !req.user.role`
→ 401 (authentication required before role verification);
`allowedRoles.includes(req.user.role)` → pass; otherwise 403. -/
def rbacMiddleware (allowedRoles : List String) (user : Option ReqUser) :
    RBACResult :=
  match user with
  | none =>
    .err 401 "Unauthorized" "Authentication required before role verification."
  | some u =>
    if jsFalsyStr u.role then
      .err 401 "Unauthorized" "Authentication required before role verification."
    else if allowedRoles.contains (u.role.getD "") then
      .next
    else
      .err 403 "Forbidden" "You do not have permission to access this resource."

/-- A role-gated route's middleware chain, e.g.
`app.use('/api/reports', authMiddleware, rbacMiddleware(['admin']), ...)`:
run `authMiddleware`; on error answer with it, otherwise hand the
attached `req.user` to `rbacMiddleware(allowedRoles)`. -/
def authThenRbac (decode : String → Option SignedAccess) (secret : String)
    (now : Nat) (users : List UserRec) (authHeader : Option String)
    (allowedRoles : List String) : RBACResult :=
  match authMiddleware decode secret now users authHeader with
  | .error e => .err e.status e.error e.message
  | .ok reqUser => rbacMiddleware allowedRoles (some reqUser)

/-! ## Helper lemmas about the OTP ledger -/

/-- Verification against an absent entry fails and leaves the store
untouched. -/
theorem verifyOTP_of_none {store : OTPStore} {phone otp : String} {now : Nat}
    (h : store phone = none) : verifyOTP store phone otp now = (false, store) := by
  unfold verifyOTP
  rw [h]

/-- A successful verification deletes the entry for the phone. -/
theorem verifyOTP_true_consumes {store : OTPStore} {phone code : String}
    {now : Nat} (h : (verifyOTP store phone code now).fst = true) :
    (verifyOTP store phone code now).snd phone = none := by
  unfold verifyOTP at h ⊢
  cases hs : store phone with
  | none => simp [hs] at h
  | some e =>
    rw [hs] at h
    by_cases hexp : e.expiresAt ≤ now
    · simp [hexp] at h
    · by_cases hotp : e.otp = code
      · simp [hs, hexp, hotp, otpDelete]
      · simp [hexp, hotp] at h

/-- Characterisation of a successful verification. -/
theorem verifyOTP_true_iff (store : OTPStore) (phone code : String) (now : Nat) :
    (verifyOTP store phone code now).fst = true ↔
      ∃ e, store phone = some e ∧ now < e.expiresAt ∧ e.otp = code := by
  unfold verifyOTP
  cases hs : store phone with
  | none => simp
  | some e =>
    by_cases hexp : e.expiresAt ≤ now
    · simp only [hexp, if_true]
      simp
      omega
    · by_cases hotp : e.otp = code
      · simp only [hexp, if_false]
        simp [hotp]
        omega
      · simp [hexp, hotp]

/-- C3: `verify(phone, code)` returns true iff an unexpired entry for
the phone holds exactly the supplied code; every true result deletes
the entry at once, so an immediately repeated verification of the same
pair fails: the pair succeeds at most once. -/
theorem otp_verify_iff_and_single_use (store : OTPStore) (phone code : String)
    (now now' : Nat) :
    ((verifyOTP store phone code now).fst = true ↔
      ∃ e, store phone = some e ∧ now < e.expiresAt ∧ e.otp = code) ∧
    ((verifyOTP store phone code now).fst = true →
      (verifyOTP store phone code now).snd phone = none ∧
      (verifyOTP (verifyOTP store phone code now).snd phone code now').fst
        = false) := by
  refine ⟨verifyOTP_true_iff store phone code now,
    fun h => ⟨verifyOTP_true_consumes h, ?_⟩⟩
  rw [verifyOTP_of_none (verifyOTP_true_consumes h)]

/-- Witness for C3 at a concrete ledger: the stored pair verifies once
and only once. -/
theorem otp_verify_iff_and_single_use_witness :
    (verifyOTP (fun k => if k = "+9779841234567" then some ⟨"123456", 300⟩ else none)
        "+9779841234567" "123456" 0).fst = true ∧
    (verifyOTP
        (verifyOTP (fun k => if k = "+9779841234567" then some ⟨"123456", 300⟩ else none)
          "+9779841234567" "123456" 0).snd
        "+9779841234567" "123456" 17).fst = false := by
  have h := otp_verify_iff_and_single_use
    (fun k => if k = "+9779841234567" then some ⟨"123456", 300⟩ else none)
    "+9779841234567" "123456" 0 17
  have ht : (verifyOTP (fun k => if k = "+9779841234567" then some ⟨"123456", 300⟩ else none)
      "+9779841234567" "123456" 0).fst = true :=
    h.1.mpr ⟨⟨"123456", 300⟩, by decide, by decide, by decide⟩
  exact ⟨ht, (h.2 ht).2⟩

/-- C10: a non-matching code against an unexpired entry fails and
leaves the ledger unchanged (entry intact), so a later matching
attempt within the window still succeeds; on a false result the entry
is removed only when expired. -/
theorem otp_mismatch_preserves_entry (store : OTPStore) (phone : String)
    (e : OTPEntry) (code code' : String) (now now' : Nat)
    (hs : store phone = some e) (hexp : now < e.expiresAt)
    (hne : code ≠ e.otp) :
    verifyOTP store phone code now = (false, store) ∧
    (now' < e.expiresAt → code' = e.otp →
      (verifyOTP (verifyOTP store phone code now).snd phone code' now').fst
        = true) ∧
    (∀ c n, (verifyOTP store phone c n).fst = false →
      (verifyOTP store phone c n).snd phone = none → e.expiresAt ≤ n) := by
  have hexp' : ¬ e.expiresAt ≤ now := by omega
  have hne' : e.otp ≠ code := fun hco => hne hco.symm
  have hmain : verifyOTP store phone code now = (false, store) := by
    unfold verifyOTP
    rw [hs]
    simp [hexp', hne']
  refine ⟨hmain, fun h1 h2 => ?_, fun c n hf hd => ?_⟩
  · rw [hmain]
    exact (verifyOTP_true_iff store phone code' now').mpr ⟨e, hs, h1, h2.symm⟩
  · by_contra hlt
    push_neg at hlt
    have hn' : ¬ e.expiresAt ≤ n := by omega
    revert hf hd
    unfold verifyOTP
    rw [hs]
    by_cases hco : e.otp = c
    · simp [hn', hco]
    · simp [hn', hco, hs]

/-- Witness for C10 at a concrete ledger: a wrong code fails without
consuming the entry and the right code still verifies afterwards. -/
theorem otp_mismatch_preserves_entry_witness :
    verifyOTP (fun k => if k = "+9779841234567" then some ⟨"123456", 300⟩ else none)
        "+9779841234567" "999999" 0
      = (false, fun k => if k = "+9779841234567" then some ⟨"123456", 300⟩ else none) ∧
    (verifyOTP
        (verifyOTP (fun k => if k = "+9779841234567" then some ⟨"123456", 300⟩ else none)
          "+9779841234567" "999999" 0).snd
        "+9779841234567" "123456" 100).fst = true := by
  have h := otp_mismatch_preserves_entry
    (fun k => if k = "+9779841234567" then some ⟨"123456", 300⟩ else none)
    "+9779841234567" ⟨"123456", 300⟩ "999999" "123456" 0 100
    (by decide) (by decide) (by decide)
  exact ⟨h.1, h.2.1 (by decide) (by decide)⟩

/-! ## OTP code range -/

/-- Lower bound of the generated code: `Math.random() ≥ 0` forces
`floor(100000 + r * 900000) ≥ 100000`. -/
theorem generateOTPnum_lower {r : ℚ} (h : 0 ≤ r) :
    100000 ≤ generateOTPnum r := by
  unfold generateOTPnum
  rw [Int.le_floor]
  push_cast
  nlinarith

/-- Upper bound of the generated code: `Math.random() < 1` forces
`floor(100000 + r * 900000) ≤ 999999`. -/
theorem generateOTPnum_upper {r : ℚ} (h : r < 1) :
    generateOTPnum r ≤ 999999 := by
  unfold generateOTPnum
  have : Int.floor ((100000 : ℚ) + r * 900000) < 1000000 := by
    rw [Int.floor_lt]
    push_cast
    nlinarith
  omega

/-- C2 counterexample: the code 000000 (numeric value 0) is not a
possible output of `generateOTP` for any outcome of `Math.random()` in
`[0, 1)` — the generator starts at 100000, so no code below 100000
(none with a leading zero) can ever be issued. -/
theorem generateOTP_zero_unreachable : reachableOTPnum 0 ↔ False := by
  constructor
  · rintro ⟨r, h0, _, he⟩
    have := generateOTPnum_lower h0
    omega
  · exact False.elim

/-- C2 amended: every generated code lies in 100000–999999 (a 6-digit
number with no leading zero); the range 000000–099999 is never
produced. -/
theorem generateOTPnum_range (r : ℚ) (h0 : 0 ≤ r) (h1 : r < 1) :
    100000 ≤ generateOTPnum r ∧ generateOTPnum r ≤ 999999 :=
  ⟨generateOTPnum_lower h0, generateOTPnum_upper h1⟩

/-- Witness for the amended C2 at `Math.random() = 1/2`. -/
theorem generateOTPnum_range_witness :
    100000 ≤ generateOTPnum (1/2) ∧ generateOTPnum (1/2) ≤ 999999 :=
  generateOTPnum_range (1/2) (by norm_num) (by norm_num)

/-! ## Token refresh and password login -/

/-- C1: a validly signed, unexpired refresh token whose subject exists
yields a fresh pair issued from the account's current role row, so the
new access token's role claim equals the role currently stored for the
account. -/
theorem refresh_uses_current_role (env : Env) (now : Nat)
    (users : List UserRec) (tok : SignedRefresh) (u : UserRec)
    (hsig : tok.secret = refreshSecretOf env) (hexp : now < tok.exp)
    (hu : users.find? (fun x => x.id == tok.id) = some u) :
    refreshTokenHandler env now users (some tok)
      = .ok (generateTokens env now u.id u.role) ∧
    (generateTokens env now u.id u.role).accessToken.role = u.role.roleName := by
  unfold refreshTokenHandler
  dsimp only
  rw [if_pos ⟨hsig, hexp⟩, hu]
  exact ⟨rfl, rfl⟩

/-- Witness for C1: an account whose stored role changed to "admin"
after the refresh token was issued refreshes into an access token
with role "admin". -/
theorem refresh_uses_current_role_witness :
    refreshTokenHandler ⟨"as", some "rs", none⟩ 50
        [⟨7, some "p@x.com", none, "h", "PSR One", ⟨1, "admin"⟩⟩]
        (some ⟨7, "rs", 100⟩)
      = .ok (generateTokens ⟨"as", some "rs", none⟩ 50 7 ⟨1, "admin"⟩) ∧
    (generateTokens ⟨"as", some "rs", none⟩ 50 7 ⟨1, "admin"⟩).accessToken.role
      = "admin" := by
  have h := refresh_uses_current_role ⟨"as", some "rs", none⟩ 50
    [⟨7, some "p@x.com", none, "h", "PSR One", ⟨1, "admin"⟩⟩]
    ⟨7, "rs", 100⟩ ⟨7, some "p@x.com", none, "h", "PSR One", ⟨1, "admin"⟩⟩
    (by decide) (by decide) (by decide)
  exact h

/-- C4: both password-login failure causes — unknown email, or wrong
password for an existing account — produce the identical response:
HTTP 401, error `Unauthorized`, message `Invalid email or password`. -/
theorem login_failures_indistinguishable (env : Env) (now : Nat)
    (compare : String → String → Bool) (users : List UserRec)
    (email password : String)
    (hfail : users.find? (fun u => u.email == some email) = none ∨
      ∃ u, users.find? (fun u => u.email == some email) = some u ∧
        compare password u.password_hash = false) :
    login env now compare users true email password
      = .failure 401 "Unauthorized" "Invalid email or password" := by
  unfold login
  rcases hfail with h | ⟨u, hu, hc⟩
  · rw [h]
    rfl
  · rw [hu]
    simp [hc]

/-- Witness for C4: a concrete store with one account; an unknown
email and a wrong password for the known email yield the same
response. -/
theorem login_failures_indistinguishable_witness :
    login ⟨"as", none, none⟩ 0 (fun p h => h == "#" ++ p)
        [⟨1, some "alice@x.com", none, "#Passw0rd1", "Alice", ⟨2, "psr"⟩⟩]
        true "bob@x.com" "Passw0rd1"
      = .failure 401 "Unauthorized" "Invalid email or password" ∧
    login ⟨"as", none, none⟩ 0 (fun p h => h == "#" ++ p)
        [⟨1, some "alice@x.com", none, "#Passw0rd1", "Alice", ⟨2, "psr"⟩⟩]
        true "alice@x.com" "wrongpass"
      = .failure 401 "Unauthorized" "Invalid email or password" := by
  refine ⟨login_failures_indistinguishable _ 0 _ _ _ _ (Or.inl (by decide)),
    login_failures_indistinguishable _ 0 _ _ _ _
      (Or.inr ⟨⟨1, some "alice@x.com", none, "#Passw0rd1", "Alice", ⟨2, "psr"⟩⟩,
        by decide, by decide⟩)⟩

/-! ## Password change and forgot-password -/

/-- C6: with the correct current password supplied, the change is
rejected by the validator chain when the new password equals the
current one or fails the strength policy, and succeeds — persisting
the hook-processed new password — exactly when the new password
differs and meets the policy. -/
theorem change_password_policy (compare : String → String → Bool)
    (bhash : String → String) (stored currentPassword newPassword : String)
    (hcmp : compare currentPassword stored = true) :
    (changePassword compare bhash stored currentPassword newPassword
        = (.ok, hashPassword bhash newPassword)
      ↔ (newPassword ≠ currentPassword ∧ meetsStrengthPolicy newPassword = true)) ∧
    ((newPassword = currentPassword ∨ meetsStrengthPolicy newPassword = false) →
      changePassword compare bhash stored currentPassword newPassword
        = (.validationFailed, stored)) := by
  unfold changePassword changePasswordValidationOk
  by_cases hne : newPassword = currentPassword
  · simp [hne, hcmp]
  · by_cases hstr : meetsStrengthPolicy newPassword = true
    · simp [hne, hstr, hcmp]
    · simp [hne, hstr, hcmp]

/-- Witness for C6: with the correct current password, a same-as-old
new password is rejected and a fresh policy-conformant one is
persisted hashed. -/
theorem change_password_policy_witness :
    changePassword (fun p h => h == "#" ++ p) (fun p => "$2b$X" ++ p)
        "#Oldpass1" "Oldpass1" "Newpass12"
      = (.ok, hashPassword (fun p => "$2b$X" ++ p) "Newpass12") ∧
    changePassword (fun p h => h == "#" ++ p) (fun p => "$2b$X" ++ p)
        "#Oldpass1" "Oldpass1" "Oldpass1"
      = (.validationFailed, "#Oldpass1") := by
  refine ⟨?_, ?_⟩
  · exact (change_password_policy (fun p h => h == "#" ++ p)
      (fun p => "$2b$X" ++ p) "#Oldpass1" "Oldpass1" "Newpass12"
      (by decide)).1.mpr ⟨by decide, by decide⟩
  · exact (change_password_policy (fun p h => h == "#" ++ p)
      (fun p => "$2b$X" ++ p) "#Oldpass1" "Oldpass1" "Oldpass1"
      (by decide)).2 (Or.inl rfl)

/-- C7 counterexample: outside production, two runs that differ only
in whether the account exists give different responses — the run for
the registered email carries the reset token in the body. -/
theorem forgot_password_dev_responses_differ :
    (forgotPassword ⟨"s", none, none⟩ false
        [⟨1, some "alice@x.com", none, "h", "Alice", ⟨2, "psr"⟩⟩]
        "alice@x.com" 0
      == forgotPassword ⟨"s", none, none⟩ false
        [⟨1, some "alice@x.com", none, "h", "Alice", ⟨2, "psr"⟩⟩]
        "bob@x.com" 0) = false := by
  decide

/-- C7 amended: the status and generic message are identical no matter
whether the email is registered; in production the entire response is
identical across any two runs, while outside production the response
for a registered email additionally carries the reset token. -/
theorem forgot_password_generic_response (env : Env) (production : Bool)
    (users users' : List UserRec) (email email' : String) (now now' : Nat) :
    (forgotPassword env production users email now).status = 200 ∧
    (forgotPassword env production users email now).message
      = "If your email is registered, you will receive a password reset link" ∧
    forgotPassword env true users email now
      = forgotPassword env true users' email' now' := by
  refine ⟨?_, ?_, ?_⟩
  · unfold forgotPassword
    cases users.find? (fun u => u.email == some email) <;> rfl
  · unfold forgotPassword
    cases users.find? (fun u => u.email == some email) <;> rfl
  · unfold forgotPassword
    cases users.find? (fun u => u.email == some email)
      <;> cases users'.find? (fun u => u.email == some email') <;> rfl

/-! ## OTP login flow, registration persistence, middleware chain -/

/-- C8: when the code verifies but no account exists for the phone and
no fullName was supplied, the handler answers RegistrationRequired,
the OTP entry is already consumed by that same request, and replaying
the identical (phone, code) pair — with any fullName — fails
verification. -/
theorem otp_registration_required_consumes (env : Env)
    (bhash : String → String) (now now' : Nat) (store : OTPStore)
    (users : List UserRec) (roles roles' : List RoleRec)
    (newId newId' : Nat) (randPass randPass' : String) (phone otp : String)
    (fullName' : Option String)
    (hv : (verifyOTP store (formatNepaliPhone phone) otp now).fst = true)
    (hu : users.find? (fun u => u.phone == some (formatNepaliPhone phone))
      = none) :
    (verifyOTPAndLogin env bhash now store users roles newId randPass true
        phone otp none).fst = .registrationRequired ∧
    (verifyOTPAndLogin env bhash now store users roles newId randPass true
        phone otp none).snd.fst (formatNepaliPhone phone) = none ∧
    (verifyOTPAndLogin env bhash now'
        (verifyOTPAndLogin env bhash now store users roles newId randPass true
          phone otp none).snd.fst
        (verifyOTPAndLogin env bhash now store users roles newId randPass true
          phone otp none).snd.snd
        roles' newId' randPass' true phone otp fullName').fst
      = .invalidOTP := by
  have hres : verifyOTPAndLogin env bhash now store users roles newId randPass
      true phone otp none
      = (.registrationRequired,
          (verifyOTP store (formatNepaliPhone phone) otp now).snd, users) := by
    unfold verifyOTPAndLogin
    simp [hv, hu, jsFalsyStr]
  have hgone : (verifyOTP store (formatNepaliPhone phone) otp now).snd
      (formatNepaliPhone phone) = none := verifyOTP_true_consumes hv
  refine ⟨by rw [hres], by rw [hres]; exact hgone, ?_⟩
  rw [hres]
  unfold verifyOTPAndLogin
  simp [verifyOTP_of_none hgone]

/-- Witness for C8 at a concrete ledger with no matching account. -/
theorem otp_registration_required_consumes_witness :
    (verifyOTPAndLogin ⟨"s", none, none⟩ (fun p => "$2b$X" ++ p) 0
        (fun k => if k = "+9779841234567" then some ⟨"123456", 300⟩ else none)
        [] [⟨2, "psr"⟩] 1 "abc123defg" true "9841234567" "123456" none).fst
      = .registrationRequired ∧
    (verifyOTPAndLogin ⟨"s", none, none⟩ (fun p => "$2b$X" ++ p) 7
        (verifyOTPAndLogin ⟨"s", none, none⟩ (fun p => "$2b$X" ++ p) 0
          (fun k => if k = "+9779841234567" then some ⟨"123456", 300⟩ else none)
          [] [⟨2, "psr"⟩] 1 "abc123defg" true "9841234567" "123456" none).snd.fst
        (verifyOTPAndLogin ⟨"s", none, none⟩ (fun p => "$2b$X" ++ p) 0
          (fun k => if k = "+9779841234567" then some ⟨"123456", 300⟩ else none)
          [] [⟨2, "psr"⟩] 1 "abc123defg" true "9841234567" "123456" none).snd.snd
        [⟨2, "psr"⟩] 2 "zzz999yyyx" true "9841234567" "123456"
        (some "Bob B")).fst
      = .invalidOTP := by
  have h := otp_registration_required_consumes ⟨"s", none, none⟩
    (fun p => "$2b$X" ++ p) 0 7
    (fun k => if k = "+9779841234567" then some ⟨"123456", 300⟩ else none)
    [] [⟨2, "psr"⟩] [⟨2, "psr"⟩] 1 2 "abc123defg" "zzz999yyyx"
    "9841234567" "123456" (some "Bob B") (by decide) (by decide)
  exact ⟨h.1, h.2.2⟩

/-- C9: a successful default-role registration persists exactly the
hook-processed password: the `@BeforeInsert` hook leaves a value that
already starts with `$2b$` untouched (stored verbatim, unhashed) and
bcrypt-hashes every other policy-conformant password. -/
theorem register_persists_hook_processed_password (env : Env)
    (bhash : String → String) (now : Nat) (users : List UserRec)
    (roles : List RoleRec) (newId : Nat)
    (isEmail isMobilePhone : String → Bool)
    (email password fullName : String) (phone : Option String)
    (psrRole : RoleRec)
    (hval : registerValidationOk isEmail isMobilePhone email password fullName
      phone none = true)
    (hnew : users.find? (fun u => u.email == some email) = none)
    (hrole : roles.find? (fun r => r.id == 2) = some psrRole) :
    register env bhash now users roles newId
        (registerValidationOk isEmail isMobilePhone email password fullName
          phone none)
        email password fullName phone none
      = (.created newId email fullName psrRole.roleName
            (generateTokens env now newId psrRole),
          users ++ [⟨newId, some email, phone, hashPassword bhash password,
            fullName, psrRole⟩]) ∧
    (strStartsWith password "$2b$" = true →
      hashPassword bhash password = password) ∧
    (strStartsWith password "$2b$" = false →
      hashPassword bhash password = bhash password) := by
  have hne : password ≠ "" := by
    intro hemp
    simp [registerValidationOk, meetsStrengthPolicy, hemp] at hval
  refine ⟨?_, fun hpre => ?_, fun hpre => ?_⟩
  · unfold register
    rw [hval]
    simp [hnew, hrole]
  · unfold hashPassword
    simp [hpre]
  · unfold hashPassword
    simp [hpre, hne]

/-- Witness for C9: a `$2b$`-prefixed password passing the policy is
stored verbatim; an ordinary one is stored as its bcrypt hash. -/
theorem register_persists_hook_processed_password_witness :
    register ⟨"s", none, none⟩ (fun p => "$2b$10$" ++ p) 0 [] [⟨2, "psr"⟩] 1
        (registerValidationOk (fun _ => true) (fun _ => true) "a@x.com"
          "$2b$fake12" "Alice" none none)
        "a@x.com" "$2b$fake12" "Alice" none none
      = (.created 1 "a@x.com" "Alice" "psr"
            (generateTokens ⟨"s", none, none⟩ 0 1 ⟨2, "psr"⟩),
          [⟨1, some "a@x.com", none, "$2b$fake12", "Alice", ⟨2, "psr"⟩⟩]) ∧
    register ⟨"s", none, none⟩ (fun p => "$2b$10$" ++ p) 0 [] [⟨2, "psr"⟩] 1
        (registerValidationOk (fun _ => true) (fun _ => true) "a@x.com"
          "Passw0rd1" "Alice" none none)
        "a@x.com" "Passw0rd1" "Alice" none none
      = (.created 1 "a@x.com" "Alice" "psr"
            (generateTokens ⟨"s", none, none⟩ 0 1 ⟨2, "psr"⟩),
          [⟨1, some "a@x.com", none, "$2b$10$Passw0rd1", "Alice", ⟨2, "psr"⟩⟩]) := by
  have h1 := register_persists_hook_processed_password ⟨"s", none, none⟩
    (fun p => "$2b$10$" ++ p) 0 [] [⟨2, "psr"⟩] 1 (fun _ => true) (fun _ => true)
    "a@x.com" "$2b$fake12" "Alice" none ⟨2, "psr"⟩ (by decide) (by decide)
    (by decide)
  have h2 := register_persists_hook_processed_password ⟨"s", none, none⟩
    (fun p => "$2b$10$" ++ p) 0 [] [⟨2, "psr"⟩] 1 (fun _ => true) (fun _ => true)
    "a@x.com" "Passw0rd1" "Alice" none ⟨2, "psr"⟩ (by decide) (by decide)
    (by decide)
  constructor
  · rw [h1.1, h1.2.1 (by decide)]
    rfl
  · rw [h2.1, h2.2.2 (by decide)]
    rfl

/-- C5 code evaluation: a valid, unexpired "psr" access token on a
route gated by `rbacMiddleware(['admin'])` is answered with HTTP 401
(`Unauthorized`, the authentication-required message) instead of the
403 `Forbidden` the guard is designed to give: `authMiddleware`
attaches `req.user.role = user.role.role_name`, and the entity
declares the property `roleName`, so the attached role is `undefined`
and the guard's `!req.user.role` branch fires. -/
theorem rbac_chain_valid_psr_token_gets_401 :
    authThenRbac (fun t => if t = "tokpsr" then some ⟨7, "psr", "s", 100⟩ else none)
        "s" 0 [⟨7, some "p@x.com", none, "h", "PSR One", ⟨2, "psr"⟩⟩]
        (some "Bearer tokpsr") ["admin"]
      = .err 401 "Unauthorized"
          "Authentication required before role verification." := by
  decide
